import Mathlib

/-!
Shallow embedding of the Customer-Management-System repository:
the `customers` table and its five SQL statements (internal/database/query.sql
and schema.sql), the repository layer (internal/customer, `Repository`),
the service layer (internal/customer, `Service`), and the two HTTP handlers
(internal/handler).  Go's error values, `fmt.Errorf("... %w", err)` wrapping
and `errors.Is` identity checking are modelled by the `GoError` type.
-/

namespace CMS

/-- A row of the `customers` table / the generated `database.Customer` struct.
Columns from schema.sql: id SERIAL PRIMARY KEY, name, email (UNIQUE),
password, created_at, updated_at. -/
structure Customer where
  id : Int
  name : String
  email : String
  password : String
  createdAt : Int
  updatedAt : Int
deriving Repr, DecidableEq

/-- A Go error value.  `sentinel uid msg` models a distinct error identity
created by `errors.New` (or a driver-supplied error); the `uid` models pointer
identity, since Go's `errors.Is` compares identities, never message text.
`wrapped pfx inner` models `fmt.Errorf(pfx ++ "%w", inner)`. -/
inductive GoError where
  | sentinel (uid : Nat) (msg : String)
  | wrapped (pfx : String) (inner : GoError)
deriving Repr, DecidableEq

/-- The sentinel `var ErrCustomerNotFound = errors.New("customer not found")`
from the repository file. -/
def ErrCustomerNotFound : GoError := .sentinel 0 "customer not found"

/-- The driver sentinel `sql.ErrNoRows`, reported by the generated `:one`
query wrappers when the statement yields no row. -/
def sqlErrNoRows : GoError := .sentinel 1 "sql: no rows in result set"

/-- The opaque storage error raised when a statement violates the
`email VARCHAR UNIQUE` constraint of schema.sql. -/
def errUniqueViolation : GoError :=
  .sentinel 2 "duplicate key value violates unique constraint"

/-- Go's `errors.Is(e, target)`: compare identities, then unwrap and repeat. -/
def GoError.is (e target : GoError) : Bool :=
  (e == target) ||
    match e with
    | .wrapped _ inner => inner.is target
    | .sentinel _ _ => false

/-- Go's `err.Error()`: a wrap produced by `fmt.Errorf("pfx%w", inner)`
prints the prefix followed by the inner error's message. -/
def GoError.message : GoError → String
  | .sentinel _ m => m
  | .wrapped p inner => p ++ inner.message

/-- The state behind the query facade: the stored `customers` rows (in
insertion order), the next SERIAL identifier, and the storage clock `now`
used for the `DEFAULT now()` / `updated_at = NOW()` timestamps. -/
structure DB where
  rows : List Customer
  nextId : Int
  now : Int
deriving Repr, DecidableEq

/-- Rows of `db` carry pairwise-distinct emails — the invariant the schema's
UNIQUE constraint maintains on every reachable table state. -/
def DB.emailsUnique (db : DB) : Prop :=
  db.rows.Pairwise (fun a b => a.email ≠ b.email)

/-- Parameter struct of the generated `CreateCustomer` query. -/
structure CreateCustomerParams where
  name : String
  email : String
  password : String
deriving Repr, DecidableEq

/-- Parameter struct of the generated `UpdateCustomer` query. -/
structure UpdateCustomerParams where
  id : Int
  name : String
  email : String
  password : String
deriving Repr, DecidableEq

namespace Queries

/-- Statement `GetCustomerByID :one` — SELECT ... WHERE id = $1 LIMIT 1;
no row yields `sql.ErrNoRows`. -/
def GetCustomerByID (db : DB) (id : Int) : Except GoError Customer :=
  match db.rows.find? (fun c => c.id == id) with
  | some c => .ok c
  | none => .error sqlErrNoRows

/-- Statement `GetCustomerByEmail :one` — SELECT ... WHERE email = $1 LIMIT 1. -/
def GetCustomerByEmail (db : DB) (email : String) : Except GoError Customer :=
  match db.rows.find? (fun c => c.email == email) with
  | some c => .ok c
  | none => .error sqlErrNoRows

/-- Statement `ListCustomers :many` — SELECT ... ORDER BY id. -/
def ListCustomers (db : DB) : Except GoError (List Customer) :=
  .ok (List.insertionSort (fun a b => a.id ≤ b.id) db.rows)

/-- Statement `CreateCustomer :one` — INSERT ... RETURNING all columns.
The id is the next SERIAL value, both timestamps default to now();
inserting an email already present violates the UNIQUE constraint. -/
def CreateCustomer (db : DB) (p : CreateCustomerParams) :
    Except GoError Customer × DB :=
  if db.rows.any (fun c => c.email == p.email) then (.error errUniqueViolation, db)
  else
    let c : Customer :=
      { id := db.nextId, name := p.name, email := p.email, password := p.password,
        createdAt := db.now, updatedAt := db.now }
    (.ok c, { db with rows := db.rows ++ [c], nextId := db.nextId + 1 })

/-- Statement `UpdateCustomer :one` — UPDATE ... SET id = $1, name = $2,
email = $3, password = $4, updated_at = NOW() WHERE id = $1 RETURNING all
columns.  Zero matched rows yield `sql.ErrNoRows`; setting an email held by
a different row violates the UNIQUE constraint. -/
def UpdateCustomer (db : DB) (p : UpdateCustomerParams) :
    Except GoError Customer × DB :=
  match db.rows.find? (fun c => c.id == p.id) with
  | none => (.error sqlErrNoRows, db)
  | some old =>
    if db.rows.any (fun c => c.id != p.id && c.email == p.email) then
      (.error errUniqueViolation, db)
    else
      (.ok { old with name := p.name, email := p.email, password := p.password,
                      updatedAt := db.now },
       { db with rows := db.rows.map (fun c =>
           if c.id == p.id then
             { c with name := p.name, email := p.email, password := p.password,
                      updatedAt := db.now }
           else c) })

/-- Statement `DeleteCustomerByEmail :execrows` — DELETE ... WHERE email = $1,
returning the number of affected rows. -/
def DeleteCustomerByEmail (db : DB) (email : String) : Except GoError Int × DB :=
  let kept := db.rows.filter (fun c => c.email != email)
  (.ok (Int.ofNat (db.rows.length - kept.length)), { db with rows := kept })

end Queries

namespace Repository

/-- Body of `Repository.FindCustomerByID` after the facade call, as a
function of that call's result: `errors.Is(err, sql.ErrNoRows)` becomes
`ErrCustomerNotFound`, any other error is wrapped "get customer by id: %w". -/
def findCustomerByIDRes (res : Except GoError Customer) : Except GoError Customer :=
  match res with
  | .ok c => .ok c
  | .error err =>
    if err.is sqlErrNoRows then .error ErrCustomerNotFound
    else .error (.wrapped "get customer by id: " err)

/-- Body of `Repository.FindCustomerByEmail` after the facade call. -/
def findCustomerByEmailRes (res : Except GoError Customer) : Except GoError Customer :=
  match res with
  | .ok c => .ok c
  | .error err =>
    if err.is sqlErrNoRows then .error ErrCustomerNotFound
    else .error (.wrapped "get customer by email: " err)

/-- Body of `Repository.CreateNewCustomer` after the facade call: every
error is wrapped "create customer: %w" (no special case). -/
def createNewCustomerRes (res : Except GoError Customer) : Except GoError Customer :=
  match res with
  | .ok c => .ok c
  | .error err => .error (.wrapped "create customer: " err)

/-- Body of `Repository.UpdateExistingCustomer` after the facade call. -/
def updateExistingCustomerRes (res : Except GoError Customer) : Except GoError Customer :=
  match res with
  | .ok c => .ok c
  | .error err =>
    if err.is sqlErrNoRows then .error ErrCustomerNotFound
    else .error (.wrapped "update customer: " err)

/-- Body of `Repository.DeleteCustomerByEmail` after the facade call: an
error is wrapped "delete customer: %w"; zero affected rows yield
`ErrCustomerNotFound`; otherwise nil error. -/
def deleteCustomerByEmailRes (res : Except GoError Int) : Option GoError :=
  match res with
  | .error err => some (.wrapped "delete customer: " err)
  | .ok rows => if rows == 0 then some ErrCustomerNotFound else none

/-- `Repository.FindAllCustomers` — returns `r.queries.ListCustomers(ctx)`
verbatim. -/
def FindAllCustomers (db : DB) : Except GoError (List Customer) :=
  Queries.ListCustomers db

/-- `Repository.FindCustomerByID` over the table state. -/
def FindCustomerByID (db : DB) (id : Int) : Except GoError Customer :=
  findCustomerByIDRes (Queries.GetCustomerByID db id)

/-- `Repository.FindCustomerByEmail` over the table state. -/
def FindCustomerByEmail (db : DB) (email : String) : Except GoError Customer :=
  findCustomerByEmailRes (Queries.GetCustomerByEmail db email)

/-- `Repository.CreateNewCustomer` over the table state. -/
def CreateNewCustomer (db : DB) (name email password : String) :
    Except GoError Customer × DB :=
  let r := Queries.CreateCustomer db { name := name, email := email, password := password }
  (createNewCustomerRes r.1, r.2)

/-- `Repository.UpdateExistingCustomer` over the table state. -/
def UpdateExistingCustomer (db : DB) (id : Int) (name email password : String) :
    Except GoError Customer × DB :=
  let r := Queries.UpdateCustomer db
    { id := id, name := name, email := email, password := password }
  (updateExistingCustomerRes r.1, r.2)

/-- `Repository.DeleteCustomerByEmail` over the table state. -/
def DeleteCustomerByEmail (db : DB) (email : String) : Option GoError × DB :=
  let r := Queries.DeleteCustomerByEmail db email
  (deleteCustomerByEmailRes r.1, r.2)

end Repository

namespace Service

/-- Body of `Service.GetCustomers` after the repository call: an error is
wrapped `fmt.Errorf("customer not found %w", err)`. -/
def getCustomersRes (res : Except GoError (List Customer)) :
    Except GoError (List Customer) :=
  match res with
  | .ok c => .ok c
  | .error err => .error (.wrapped "customer not found " err)

/-- Body of `Service.GetCustomerByID` after the repository call: an error is
wrapped "no customer with this id has found %w". -/
def getCustomerByIDRes (res : Except GoError Customer) : Except GoError Customer :=
  match res with
  | .ok c => .ok c
  | .error err => .error (.wrapped "no customer with this id has found " err)

/-- Body of `Service.GetCustomerByEmail` after the repository call: an error
is wrapped "no customer with this email has found %w". -/
def getCustomerByEmailRes (res : Except GoError Customer) : Except GoError Customer :=
  match res with
  | .ok c => .ok c
  | .error err => .error (.wrapped "no customer with this email has found " err)

/-- Body of `Service.CreateCustomer` after the repository call: an error is
wrapped "no customer created %w". -/
def createCustomerRes (res : Except GoError Customer) : Except GoError Customer :=
  match res with
  | .ok c => .ok c
  | .error err => .error (.wrapped "no customer created " err)

/-- Body of `Service.UpdateCustomer` after the repository call: an error is
wrapped "no information has changed %w". -/
def updateCustomerRes (res : Except GoError Customer) : Except GoError Customer :=
  match res with
  | .ok c => .ok c
  | .error err => .error (.wrapped "no information has changed " err)

/-- Body of `Service.DeleteCustomerByEmail`: the repository result is
returned verbatim, with no wrapping. -/
def deleteCustomerByEmailRes (res : Option GoError) : Option GoError :=
  res

/-- `Service.GetCustomers` over the table state. -/
def GetCustomers (db : DB) : Except GoError (List Customer) :=
  getCustomersRes (Repository.FindAllCustomers db)

/-- `Service.GetCustomerByID` over the table state. -/
def GetCustomerByID (db : DB) (id : Int) : Except GoError Customer :=
  getCustomerByIDRes (Repository.FindCustomerByID db id)

/-- `Service.GetCustomerByEmail` over the table state. -/
def GetCustomerByEmail (db : DB) (email : String) : Except GoError Customer :=
  getCustomerByEmailRes (Repository.FindCustomerByEmail db email)

/-- `Service.CreateCustomer` over the table state. -/
def CreateCustomer (db : DB) (name email password : String) :
    Except GoError Customer × DB :=
  let r := Repository.CreateNewCustomer db name email password
  (createCustomerRes r.1, r.2)

/-- `Service.UpdateCustomer` over the table state. -/
def UpdateCustomer (db : DB) (id : Int) (name email password : String) :
    Except GoError Customer × DB :=
  let r := Repository.UpdateExistingCustomer db id name email password
  (updateCustomerRes r.1, r.2)

/-- `Service.DeleteCustomerByEmail` over the table state. -/
def DeleteCustomerByEmail (db : DB) (email : String) : Option GoError × DB :=
  let r := Repository.DeleteCustomerByEmail db email
  (deleteCustomerByEmailRes r.1, r.2)

end Service

/-- A JSON value, for the bodies the handlers encode. -/
inductive Json where
  | str (s : String)
  | num (n : Int)
  | obj (fields : List (String × Json))
  | arr (elems : List Json)
deriving Repr

/-- The body an HTTP handler writes: plain text from `http.Error`, or a
JSON document from `json.NewEncoder(w).Encode`. -/
inductive Body where
  | text (s : String)
  | json (j : Json)
deriving Repr

/-- The observable HTTP response: status code, Content-Type header, body. -/
structure Response where
  status : Nat
  contentType : Option String
  body : Body
deriving Repr

/-- Go's `http.Error(w, msg, code)`: text/plain content type, the message
followed by a newline, the given status code. -/
def httpError (msg : String) (code : Nat) : Response :=
  { status := code, contentType := some "text/plain; charset=utf-8",
    body := .text (msg ++ "\n") }

/-- The `createCustomerRequest` struct the create handler decodes from the
request body. -/
structure CreateCustomerRequest where
  name : String
  email : String
  password : String
deriving Repr, DecidableEq

/-- The generated `database.Customer` struct marshalled by `encoding/json`
in the list handler: every column, the password included. -/
def Customer.toJson (c : Customer) : Json :=
  .obj [("ID", .num c.id), ("Name", .str c.name), ("Email", .str c.email),
        ("Password", .str c.password), ("CreatedAt", .num c.createdAt),
        ("UpdatedAt", .num c.updatedAt)]

namespace Handler

/-- `Handler.CreateCustomer` (create_customer_handler.go), parametrized by
the service it holds (`h.service.CreateCustomer`).  The request body is the
outcome of JSON decoding: `none` models a malformed body.  Method must be
POST; a decode failure yields 400 "invalid request body"; a service error
yields 500 with the fixed text "could not create customer"; success yields
201 with a JSON object of exactly id, name, email. -/
def CreateCustomer
    (service : DB → String → String → String → Except GoError Customer × DB)
    (db : DB) (method : String) (body : Option CreateCustomerRequest) :
    Response × DB :=
  if method != "POST" then (httpError "method not allowed" 405, db)
  else
    match body with
    | none => (httpError "invalid request body" 400, db)
    | some req =>
      let r := service db req.name req.email req.password
      match r.1 with
      | .error _ => (httpError "could not create customer" 500, r.2)
      | .ok c =>
        ({ status := 201, contentType := some "application/json",
           body := .json (.obj [("id", .num c.id), ("name", .str c.name),
                                ("email", .str c.email)]) }, r.2)

/-- `Handler.GetCustomers` (get_customers_handler.go), parametrized by the
service it holds.  Method must be GET; a service error yields 500 with
"failed to fetch customers: " followed by the error's text; success yields
200 with the JSON array of full customer records. -/
def GetCustomers
    (service : DB → Except GoError (List Customer))
    (db : DB) (method : String) : Response :=
  if method != "GET" then httpError "method not allowed" 405
  else
    match service db with
    | .error err => httpError ("failed to fetch customers: " ++ err.message) 500
    | .ok cs =>
      { status := 200, contentType := some "application/json",
        body := .json (.arr (cs.map Customer.toJson)) }

/-- The create handler as wired in main.go's `initializeHandler`, holding
the real service over the real repository. -/
def CreateCustomerApp (db : DB) (method : String)
    (body : Option CreateCustomerRequest) : Response × DB :=
  CreateCustomer Service.CreateCustomer db method body

/-- The list handler as wired in main.go's `initializeHandler`. -/
def GetCustomersApp (db : DB) (method : String) : Response :=
  GetCustomers Service.GetCustomers db method

end Handler

/-- The error component of an `Except` result satisfies `errors.Is` against
the given target (false on a success result). -/
def exceptErrIs {α : Type} (res : Except GoError α) (t : GoError) : Bool :=
  match res with
  | .error e => e.is t
  | .ok _ => false

/-- The message of the error component of an `Except` result. -/
def exceptErrMsg {α : Type} (res : Except GoError α) : String :=
  match res with
  | .error e => e.message
  | .ok _ => ""

/-- The message of an optional error. -/
def optionErrMsg (res : Option GoError) : String :=
  match res with
  | some e => e.message
  | none => ""

/-- `ext` is `base` with a non-empty text prefix prepended. -/
def strictlyExtends (base ext : String) : Prop :=
  ∃ p, p ≠ "" ∧ ext = p ++ base

/-! Helper lemmas. -/

/-- Unwinding `errors.Is` one level through a wrap. -/
theorem GoError.is_wrapped (p : String) (e t : GoError) :
    (GoError.wrapped p e).is t = ((GoError.wrapped p e == t) || e.is t) :=
  rfl

/-- A wrap satisfies `errors.Is` against any target its inner error does. -/
theorem GoError.is_of_inner {e t : GoError} (p : String) (h : e.is t = true) :
    (GoError.wrapped p e).is t = true := by
  rw [GoError.is_wrapped, h, Bool.or_true]

/-- A string absorbed by left-appending must be empty. -/
theorem append_left_eq_empty {s p : String} (h : s = p ++ s) : p = "" := by
  have hlen := congrArg String.length h
  rw [String.length_append] at hlen
  have h0 : p.length = 0 := by omega
  cases p with
  | mk data =>
    cases data with
    | nil => rfl
    | cons a as => simp [String.length] at h0

/-! Claim theorems. -/

/-- C1: for the repository read operations FindCustomerByID and
FindCustomerByEmail, a facade result matching sql.ErrNoRows maps to a nil
entity with exactly the sentinel ErrCustomerNotFound, and any other facade
error maps to an error wrapping the underlying one under the prefix
"get customer by id: " respectively "get customer by email: "
(`errors.Is` against the underlying error still succeeds). -/
theorem c1_read_ops_error_contract (err : GoError) :
    (err.is sqlErrNoRows = true →
      Repository.findCustomerByIDRes (.error err) = .error ErrCustomerNotFound ∧
      Repository.findCustomerByEmailRes (.error err) = .error ErrCustomerNotFound) ∧
    (err.is sqlErrNoRows = false →
      Repository.findCustomerByIDRes (.error err) =
        .error (.wrapped "get customer by id: " err) ∧
      Repository.findCustomerByEmailRes (.error err) =
        .error (.wrapped "get customer by email: " err) ∧
      (GoError.wrapped "get customer by id: " err).is err = true ∧
      (GoError.wrapped "get customer by email: " err).is err = true) := by
  constructor
  · intro h
    simp [Repository.findCustomerByIDRes, Repository.findCustomerByEmailRes, h]
  · intro h
    have hself : err.is err = true := by
      cases err <;> simp [GoError.is]
    refine ⟨?_, ?_, GoError.is_of_inner _ hself, GoError.is_of_inner _ hself⟩
    · simp [Repository.findCustomerByIDRes, h]
    · simp [Repository.findCustomerByEmailRes, h]

/-- Witness for C1, at the concrete facade errors sql.ErrNoRows and
ErrCustomerNotFound (the latter standing for an arbitrary non-no-rows
driver failure). -/
theorem c1_read_ops_error_contract_witness :
    (Repository.findCustomerByIDRes (.error sqlErrNoRows) = .error ErrCustomerNotFound ∧
     Repository.findCustomerByEmailRes (.error sqlErrNoRows) = .error ErrCustomerNotFound) ∧
    (Repository.findCustomerByIDRes (.error ErrCustomerNotFound) =
       .error (.wrapped "get customer by id: " ErrCustomerNotFound) ∧
     Repository.findCustomerByEmailRes (.error ErrCustomerNotFound) =
       .error (.wrapped "get customer by email: " ErrCustomerNotFound) ∧
     (GoError.wrapped "get customer by id: " ErrCustomerNotFound).is ErrCustomerNotFound = true ∧
     (GoError.wrapped "get customer by email: " ErrCustomerNotFound).is ErrCustomerNotFound = true) :=
  ⟨(c1_read_ops_error_contract sqlErrNoRows).1 (by decide),
   (c1_read_ops_error_contract ErrCustomerNotFound).2 (by decide)⟩

/-- C2: whenever the repository result carries the not-found sentinel (in
the `errors.Is` sense), every service method's returned error still matches
ErrCustomerNotFound by identity after the service's wrapping. -/
theorem c2_service_preserves_sentinel (err : GoError)
    (h : err.is ErrCustomerNotFound = true) :
    exceptErrIs (Service.getCustomersRes (.error err)) ErrCustomerNotFound = true ∧
    exceptErrIs (Service.getCustomerByIDRes (.error err)) ErrCustomerNotFound = true ∧
    exceptErrIs (Service.getCustomerByEmailRes (.error err)) ErrCustomerNotFound = true ∧
    exceptErrIs (Service.createCustomerRes (.error err)) ErrCustomerNotFound = true ∧
    exceptErrIs (Service.updateCustomerRes (.error err)) ErrCustomerNotFound = true ∧
    (Service.deleteCustomerByEmailRes (some err)).all
      (fun e => e.is ErrCustomerNotFound) = true := by
  refine ⟨?_, ?_, ?_, ?_, ?_, ?_⟩
  · exact GoError.is_of_inner _ h
  · exact GoError.is_of_inner _ h
  · exact GoError.is_of_inner _ h
  · exact GoError.is_of_inner _ h
  · exact GoError.is_of_inner _ h
  · simpa [Service.deleteCustomerByEmailRes, Option.all] using h

/-- Witness for C2 at the repository error ErrCustomerNotFound itself. -/
theorem c2_service_preserves_sentinel_witness :
    exceptErrIs (Service.getCustomersRes (.error ErrCustomerNotFound))
      ErrCustomerNotFound = true ∧
    exceptErrIs (Service.getCustomerByIDRes (.error ErrCustomerNotFound))
      ErrCustomerNotFound = true ∧
    exceptErrIs (Service.getCustomerByEmailRes (.error ErrCustomerNotFound))
      ErrCustomerNotFound = true ∧
    exceptErrIs (Service.createCustomerRes (.error ErrCustomerNotFound))
      ErrCustomerNotFound = true ∧
    exceptErrIs (Service.updateCustomerRes (.error ErrCustomerNotFound))
      ErrCustomerNotFound = true ∧
    (Service.deleteCustomerByEmailRes (some ErrCustomerNotFound)).all
      (fun e => e.is ErrCustomerNotFound) = true :=
  c2_service_preserves_sentinel ErrCustomerNotFound (by decide)

/-- Counterexample to C3 as stated: on the delete-by-email path the service
returns the repository error verbatim, so its message does not strictly
extend the repository error's message. -/
theorem c3_counterexample :
    optionErrMsg (Service.deleteCustomerByEmailRes (some ErrCustomerNotFound)) =
      GoError.message ErrCustomerNotFound ∧
    ¬ strictlyExtends (GoError.message ErrCustomerNotFound)
        (optionErrMsg (Service.deleteCustomerByEmailRes (some ErrCustomerNotFound))) := by
  refine ⟨rfl, ?_⟩
  rintro ⟨p, hp, he⟩
  exact hp (append_left_eq_empty he)

/-- C3 amended: the five service methods that wrap (GetCustomers,
GetCustomerByID, GetCustomerByEmail, CreateCustomer, UpdateCustomer) return
an error whose message strictly extends the repository error's message with
a non-empty prefix; DeleteCustomerByEmail returns the repository error
unchanged. -/
theorem c3_amended_service_prefixes (err : GoError) :
    strictlyExtends err.message (exceptErrMsg (Service.getCustomersRes (.error err))) ∧
    strictlyExtends err.message (exceptErrMsg (Service.getCustomerByIDRes (.error err))) ∧
    strictlyExtends err.message (exceptErrMsg (Service.getCustomerByEmailRes (.error err))) ∧
    strictlyExtends err.message (exceptErrMsg (Service.createCustomerRes (.error err))) ∧
    strictlyExtends err.message (exceptErrMsg (Service.updateCustomerRes (.error err))) ∧
    Service.deleteCustomerByEmailRes (some err) = some err :=
  ⟨⟨"customer not found ", by decide, rfl⟩,
   ⟨"no customer with this id has found ", by decide, rfl⟩,
   ⟨"no customer with this email has found ", by decide, rfl⟩,
   ⟨"no customer created ", by decide, rfl⟩,
   ⟨"no information has changed ", by decide, rfl⟩,
   rfl⟩

/-- A concrete stored row used by witnesses. -/
def aliceRow : Customer :=
  { id := 1, name := "alice", email := "a@x", password := "p1",
    createdAt := 0, updatedAt := 0 }

/-- A second concrete stored row used by witnesses. -/
def bobRow : Customer :=
  { id := 2, name := "bob", email := "b@x", password := "p2",
    createdAt := 0, updatedAt := 0 }

/-- A two-row table used to exercise the operations: both identifiers
and both emails are distinct, as the schema requires. -/
def twoRowDB : DB :=
  { rows := [aliceRow, bobRow], nextId := 3, now := 5 }

/-- Counterexample to C4 as stated: a row with identifier 1 exists, yet
updating it to the email already held by row 2 violates the schema's UNIQUE
constraint, so the operation returns a wrapped storage error rather than
the updated entity. -/
theorem c4_counterexample :
    twoRowDB.rows.any (fun c => c.id == 1) = true ∧
    (Repository.UpdateExistingCustomer twoRowDB 1 "alice" "b@x" "p1").1 =
      .error (.wrapped "update customer: " errUniqueViolation) :=
  ⟨rfl, rfl⟩

/-- C4 amended: when no row has the identifier, the update returns exactly
the not-found sentinel and leaves the table unchanged; when a row with the
identifier exists and the given email is not held by a row with a different
identifier, the update returns the updated entity and no error. -/
theorem c4_amended_update_contract (db : DB) (id : Int)
    (name email password : String) :
    ((∀ r ∈ db.rows, r.id ≠ id) →
      Repository.UpdateExistingCustomer db id name email password =
        (.error ErrCustomerNotFound, db)) ∧
    ((∃ r ∈ db.rows, r.id = id) →
     (∀ r ∈ db.rows, r.id ≠ id → r.email ≠ email) →
      ∃ c, (Repository.UpdateExistingCustomer db id name email password).1 = .ok c ∧
        c.id = id ∧ c.name = name ∧ c.email = email ∧ c.password = password ∧
        c.updatedAt = db.now) := by
  constructor
  · intro hno
    have hfind : db.rows.find? (fun c => c.id == id) = none := by
      rw [List.find?_eq_none]
      intro r hr
      simpa using hno r hr
    simp [Repository.UpdateExistingCustomer, Queries.UpdateCustomer, hfind,
          Repository.updateExistingCustomerRes, GoError.is]
  · intro hex hfresh
    have hfind : (db.rows.find? (fun c => c.id == id)).isSome := by
      rw [List.find?_isSome]
      obtain ⟨r, hr, hrid⟩ := hex
      exact ⟨r, hr, by simpa using hrid⟩
    obtain ⟨old, hold⟩ := Option.isSome_iff_exists.mp hfind
    have holdid : old.id = id := by
      have := List.find?_some hold
      simpa using this
    have holdmem : old ∈ db.rows := List.mem_of_find?_eq_some hold
    have hany : db.rows.any (fun c => c.id != id && c.email == email) = false := by
      rw [List.any_eq_false]
      intro r hr
      simp only [Bool.and_eq_true, bne_iff_ne, beq_iff_eq, not_and]
      exact fun hne => hfresh r hr hne
    refine ⟨{ old with name := name, email := email, password := password, updatedAt := db.now }, ?_, holdid, rfl, rfl, rfl, rfl⟩
    simp [Repository.UpdateExistingCustomer, Queries.UpdateCustomer, hold, hany,
          Repository.updateExistingCustomerRes]

/-- Witness for the amended C4: identifier 99 is absent from the two-row
table (not-found branch); identifier 1 is present and keeps its own email
(success branch). -/
theorem c4_amended_update_contract_witness :
    (Repository.UpdateExistingCustomer twoRowDB 99 "zoe" "z@x" "pz" =
      (.error ErrCustomerNotFound, twoRowDB)) ∧
    (∃ c, (Repository.UpdateExistingCustomer twoRowDB 1 "alice2" "a@x" "p9").1 = .ok c ∧
      c.id = 1 ∧ c.name = "alice2" ∧ c.email = "a@x" ∧ c.password = "p9" ∧
      c.updatedAt = twoRowDB.now) :=
  ⟨(c4_amended_update_contract twoRowDB 99 "zoe" "z@x" "pz").1 (by decide),
   (c4_amended_update_contract twoRowDB 1 "alice2" "a@x" "p9").2 (by decide) (by decide)⟩

/-- Filtering out one email from a table with pairwise-distinct emails
removes exactly the row holding it. -/
theorem filter_email_eq_erase (email : String) :
    ∀ (l : List Customer), l.Pairwise (fun a b => a.email ≠ b.email) →
      ∀ r ∈ l, r.email = email →
        l.filter (fun c => c.email != email) = l.erase r := by
  intro l
  induction l with
  | nil => intro _ r hr; exact absurd hr (List.not_mem_nil r)
  | cons x xs ih =>
    intro hp r hr hre
    obtain ⟨hx, hxs⟩ := List.pairwise_cons.mp hp
    by_cases hrx : r = x
    · subst hrx
      have hpredr : (r.email != email) = false := by simp [hre]
      rw [List.filter_cons, hpredr, List.erase_cons_head]
      simp only [Bool.false_eq_true, if_false]
      apply List.filter_eq_self.mpr
      intro c hc
      have : r.email ≠ c.email := hx c hc
      simp [hre ▸ this.symm]
    · have hrxs : r ∈ xs := (List.mem_cons.mp hr).resolve_left hrx
      have hxe : x.email ≠ email := hre ▸ hx r hrxs
      have hpredx : (x.email != email) = true := by simpa using hxe
      rw [List.filter_cons, hpredx]
      simp only [if_true]
      rw [List.erase_cons_tail, ih hxs r hrxs hre]
      simp [Ne.symm hrx]

/-- C5: over any table whose emails are pairwise distinct (the schema
invariant), the repository delete-by-email returns the not-found sentinel
and leaves the table unchanged when no row has the email; when a row has
it, the operation reports no error and removes exactly that row, leaving
every other row in place. -/
theorem c5_delete_contract (db : DB) (email : String) (hu : db.emailsUnique) :
    ((∀ r ∈ db.rows, r.email ≠ email) →
      Repository.DeleteCustomerByEmail db email = (some ErrCustomerNotFound, db)) ∧
    (∀ r ∈ db.rows, r.email = email →
      (Repository.DeleteCustomerByEmail db email).1 = none ∧
      (Repository.DeleteCustomerByEmail db email).2.rows = db.rows.erase r ∧
      (Repository.DeleteCustomerByEmail db email).2.rows.length + 1 =
        db.rows.length) := by
  constructor
  · intro hno
    have hfilter : db.rows.filter (fun c => c.email != email) = db.rows := by
      apply List.filter_eq_self.mpr
      intro c hc
      simpa using hno c hc
    simp [Repository.DeleteCustomerByEmail, Queries.DeleteCustomerByEmail,
          Repository.deleteCustomerByEmailRes, hfilter]
  · intro r hr hre
    have hfilter := filter_email_eq_erase email db.rows hu r hr hre
    have hpos : 0 < db.rows.length := List.length_pos_of_mem hr
    have hlen : (db.rows.erase r).length = db.rows.length - 1 :=
      List.length_erase_of_mem hr
    have hcount : db.rows.length -
        (db.rows.filter (fun c => c.email != email)).length = 1 := by
      rw [hfilter, hlen]; omega
    refine ⟨?_, ?_, ?_⟩
    · simp [Repository.DeleteCustomerByEmail, Queries.DeleteCustomerByEmail,
            Repository.deleteCustomerByEmailRes, hcount]
    · simp [Repository.DeleteCustomerByEmail, Queries.DeleteCustomerByEmail,
            hfilter]
    · simp only [Repository.DeleteCustomerByEmail, Queries.DeleteCustomerByEmail]
      rw [hfilter, hlen]; omega

/-- Witness for C5 on the two-row table: deleting an absent email yields
the sentinel and no change; deleting row 2's email removes exactly row 2. -/
theorem c5_delete_contract_witness :
    (Repository.DeleteCustomerByEmail twoRowDB "ghost@x" =
      (some ErrCustomerNotFound, twoRowDB)) ∧
    ((Repository.DeleteCustomerByEmail twoRowDB "b@x").1 = none ∧
     (Repository.DeleteCustomerByEmail twoRowDB "b@x").2.rows =
       twoRowDB.rows.erase { id := 2, name := "bob", email := "b@x", password := "p2", createdAt := 0, updatedAt := 0 } ∧
     (Repository.DeleteCustomerByEmail twoRowDB "b@x").2.rows.length + 1 =
       twoRowDB.rows.length) :=
  ⟨(c5_delete_contract twoRowDB "ghost@x" (by unfold DB.emailsUnique; decide)).1 (by decide),
   (c5_delete_contract twoRowDB "b@x" (by unfold DB.emailsUnique; decide)).2
     { id := 2, name := "bob", email := "b@x", password := "p2", createdAt := 0, updatedAt := 0 }
     (by decide) (by decide)⟩

instance : IsTotal Customer (fun a b => a.id ≤ b.id) :=
  ⟨fun a b => Int.le_total a.id b.id⟩

instance : IsTrans Customer (fun a b => a.id ≤ b.id) :=
  ⟨fun _ _ _ h h2 => le_trans h h2⟩

/-- C6: the list operation returns every stored row (a permutation of the
table, no truncation), sorted in ascending identifier order, and the GET
handler serves exactly that list as the 200 response. -/
theorem c6_list_returns_all_sorted (db : DB) :
    ∃ l, Repository.FindAllCustomers db = .ok l ∧
      List.Perm l db.rows ∧
      List.Sorted (fun a b => a.id ≤ b.id) l ∧
      Handler.GetCustomersApp db "GET" =
        { status := 200, contentType := some "application/json",
          body := .json (.arr (l.map Customer.toJson)) } :=
  ⟨List.insertionSort (fun a b => a.id ≤ b.id) db.rows, rfl,
   List.perm_insertionSort _ db.rows,
   List.sorted_insertionSort _ db.rows, rfl⟩

/-- C7: a POST with a well-formed body whose email is not yet stored gets
a 201 response whose JSON object holds exactly id, name and email — the id
being the newly assigned identifier, name and email the request's values,
the password absent — and the new row is appended to the table. -/
theorem c7_create_success_response (db : DB) (req : CreateCustomerRequest)
    (hfresh : ∀ r ∈ db.rows, r.email ≠ req.email) :
    Handler.CreateCustomerApp db "POST" (some req) =
      ({ status := 201, contentType := some "application/json",
         body := .json (.obj [("id", .num db.nextId), ("name", .str req.name),
                              ("email", .str req.email)]) },
       { db with
           rows := db.rows ++
             [{ id := db.nextId, name := req.name, email := req.email,
                password := req.password, createdAt := db.now, updatedAt := db.now }],
           nextId := db.nextId + 1 }) := by
  have hany : db.rows.any (fun c => c.email == req.email) = false := by
    rw [List.any_eq_false]
    intro r hr
    simpa using hfresh r hr
  simp [Handler.CreateCustomerApp, Handler.CreateCustomer, Service.CreateCustomer,
        Repository.CreateNewCustomer, Queries.CreateCustomer, hany,
        Service.createCustomerRes, Repository.createNewCustomerRes]

/-- Witness for C7: creating "carol" with a fresh email on the two-row
table yields 201 with id 3 and appends the row. -/
theorem c7_create_success_response_witness :
    Handler.CreateCustomerApp twoRowDB "POST"
      (some { name := "carol", email := "c@x", password := "p3" }) =
      ({ status := 201, contentType := some "application/json",
         body := .json (.obj [("id", .num twoRowDB.nextId), ("name", .str "carol"),
                              ("email", .str "c@x")]) },
       { twoRowDB with
           rows := twoRowDB.rows ++
             [{ id := twoRowDB.nextId, name := "carol", email := "c@x",
                password := "p3", createdAt := twoRowDB.now, updatedAt := twoRowDB.now }],
           nextId := twoRowDB.nextId + 1 }) :=
  c7_create_success_response twoRowDB
    { name := "carol", email := "c@x", password := "p3" } (by decide)

/-- C8: a POST whose body fails JSON decoding gets 400 "invalid request
body", the table is returned unchanged, and the response is the same for
every service — the service (hence repository and storage) is never
consulted. -/
theorem c8_malformed_body_rejected
    (service : DB → String → String → String → Except GoError Customer × DB)
    (db : DB) :
    Handler.CreateCustomer service db "POST" none =
      (httpError "invalid request body" 400, db) :=
  rfl

/-- C9: a successful update keeps the matched row's identifier and creation
timestamp, replaces name, email and password with the arguments, refreshes
the updated timestamp to the storage clock, and changes no identifier of
any stored row; delete and create likewise leave every surviving row's
identity intact. -/
theorem c9_update_frame (db : DB) (id : Int) (name email password : String)
    (old c : Customer) (db2 : DB)
    (hold : db.rows.find? (fun r => r.id == id) = some old)
    (hres : Repository.UpdateExistingCustomer db id name email password =
      (.ok c, db2)) :
    c.id = old.id ∧ c.createdAt = old.createdAt ∧ c.name = name ∧
    c.email = email ∧ c.password = password ∧ c.updatedAt = db.now ∧
    db2.rows.map (fun r => r.id) = db.rows.map (fun r => r.id) ∧
    (∀ r ∈ db.rows, r.id ≠ id → r ∈ db2.rows) ∧
    ((Repository.DeleteCustomerByEmail db email).2.rows).Sublist db.rows ∧
    db.rows.Sublist ((Repository.CreateNewCustomer db name email password).2).rows := by
  have hdel : ((Repository.DeleteCustomerByEmail db email).2.rows).Sublist db.rows := by
    simp only [Repository.DeleteCustomerByEmail, Queries.DeleteCustomerByEmail]
    exact List.filter_sublist db.rows
  have hcre : db.rows.Sublist
      ((Repository.CreateNewCustomer db name email password).2).rows := by
    simp only [Repository.CreateNewCustomer, Queries.CreateCustomer]
    by_cases h : db.rows.any (fun r => r.email == email)
    · simp [h]
    · simp [h]
  cases hA : db.rows.any (fun r => r.id != id && r.email == email) with
  | true =>
    have hneq : errUniqueViolation.is sqlErrNoRows = false := by decide
    simp [Repository.UpdateExistingCustomer, Queries.UpdateCustomer, hold, hA,
          Repository.updateExistingCustomerRes, hneq] at hres
  | false =>
    simp [Repository.UpdateExistingCustomer, Queries.UpdateCustomer, hold, hA,
          Repository.updateExistingCustomerRes] at hres
    obtain ⟨hc, hdb⟩ := hres
    subst hc
    subst hdb
    refine ⟨rfl, rfl, rfl, rfl, rfl, rfl, ?_, ?_, hdel, hcre⟩
    · rw [List.map_map]
      apply List.map_congr_left
      intro r _
      dsimp [Function.comp]
      by_cases h : r.id = id
      · simp [h]
      · simp [h]
    · intro r hr hne
      refine List.mem_map.mpr ⟨r, hr, ?_⟩
      simp [hne]

/-- Row 1 after the witnessed update: new name and password, same identifier
and creation timestamp, updated timestamp set to the storage clock. -/
def aliceUpdated : Customer :=
  { id := 1, name := "al2", email := "a@x", password := "p9",
    createdAt := 0, updatedAt := 5 }

/-- The two-row table after the witnessed update of row 1. -/
def afterUpdateDB : DB :=
  { rows := [aliceUpdated, bobRow], nextId := 3, now := 5 }

/-- Witness for C9: updating row 1 of the two-row table keeps its
identifier and creation timestamp, replaces the mutable fields, refreshes
the updated timestamp, and leaves row 2 and all identifiers in place. -/
theorem c9_update_frame_witness :
    aliceUpdated.id = aliceRow.id ∧
    aliceUpdated.createdAt = aliceRow.createdAt ∧
    aliceUpdated.name = "al2" ∧
    aliceUpdated.email = "a@x" ∧
    aliceUpdated.password = "p9" ∧
    aliceUpdated.updatedAt = twoRowDB.now ∧
    afterUpdateDB.rows.map (fun r => r.id) = twoRowDB.rows.map (fun r => r.id) ∧
    (∀ r ∈ twoRowDB.rows, r.id ≠ 1 → r ∈ afterUpdateDB.rows) ∧
    ((Repository.DeleteCustomerByEmail twoRowDB "a@x").2.rows).Sublist twoRowDB.rows ∧
    twoRowDB.rows.Sublist
      ((Repository.CreateNewCustomer twoRowDB "al2" "a@x" "p9").2).rows :=
  c9_update_frame twoRowDB 1 "al2" "a@x" "p9" aliceRow aliceUpdated afterUpdateDB
    rfl rfl

/-- C10: on the create path the handler's error response is one fixed
value — 500 with the text "could not create customer" — identical for
every pair of storage errors, so no storage error text reaches the client;
the list path, by contrast, embeds the raw error text in its 500 body. -/
theorem c10_create_error_opaque :
    (∀ (e1 e2 : GoError) (db : DB) (req : CreateCustomerRequest),
      Handler.CreateCustomer (fun d _ _ _ => (.error e1, d)) db "POST" (some req) =
        Handler.CreateCustomer (fun d _ _ _ => (.error e2, d)) db "POST" (some req)) ∧
    (∀ (e : GoError) (db : DB) (req : CreateCustomerRequest),
      Handler.CreateCustomer (fun d _ _ _ => (.error e, d)) db "POST" (some req) =
        (httpError "could not create customer" 500, db)) ∧
    (∀ (e : GoError) (db : DB),
      Handler.GetCustomers (fun _ => .error e) db "GET" =
        httpError ("failed to fetch customers: " ++ e.message) 500) :=
  ⟨fun _ _ _ _ => rfl, fun _ _ _ => rfl, fun _ _ => rfl⟩

end CMS
